import Mathlib

/-!
# Verification of the mic-to-mp3 recorder core

A shallow embedding of the recording/encoding orchestration of the
`mic-to-mp3` repository, together with proofs about its behaviour.

The embedding follows the TypeScript sources:

* `src/voice-recorder-core.ts` — the `VoiceRecorder` controller
  (state snapshots, `stop()`, `destroy()`, `finalizeRecording`,
  `runFinalizeRecording`);
* `src/encode-main-thread.ts` — `MainThreadEncodeSession`;
* `src/encode-worker.ts` — `WorkerEncodeSession` and
  `createMp3EncodeSession`;
* `src/constants.ts` — the `DEFAULTS` record.

Asynchronous control flow is modelled with the JavaScript event-loop
discipline: a method body runs atomically between `await` points
("segments"), and other events (in particular `destroy()`) can only be
interleaved at those suspension points.  Results of external
collaborators (codec flush, blob decode, one-shot encode) are supplied
as explicit environment values, since the controller only branches on
their success/failure and byte counts.
-/

namespace MicToMp3

/-! ## Data model (`src/types.ts`, `src/constants.ts`) -/

/-- The `RecordingMetadata` from `src/types.ts`: metadata delivered to
`onRecordingComplete` alongside the MP3 bytes. -/
structure RecordingMetadata where
  durationSec : Nat
  sizeBytes : Nat
  mimeType : String
deriving Repr, DecidableEq

/-- The `VoiceRecorderState` from `src/types.ts`: the publicly observable
state snapshot. -/
structure VoiceRecorderState where
  isRecording : Bool
  isProcessing : Bool
  elapsed : Nat
  error : Option String
  audioLevels : List Nat
deriving Repr, DecidableEq

/-- The `INITIAL_STATE` from `src/voice-recorder-core.ts`. -/
def INITIAL_STATE : VoiceRecorderState :=
  { isRecording := false
    isProcessing := false
    elapsed := 0
    error := none
    audioLevels := [] }

/-- The `DEFAULTS` record from `src/constants.ts`. -/
structure Defaults where
  MAX_DURATION_SEC : Nat
  MAX_SIZE_BYTES : Nat
  TARGET_BITRATE : Nat
  SAMPLE_RATE : Nat
deriving Repr, DecidableEq

/-- The `DEFAULTS` from `src/constants.ts`. -/
def DEFAULTS : Defaults :=
  { MAX_DURATION_SEC := 600
    MAX_SIZE_BYTES := 25 * 1024 * 1024
    TARGET_BITRATE := 64
    SAMPLE_RATE := 44100 }

/-- The `VoiceRecorderOptions` from `src/types.ts` (the callback itself is
modelled by the event log, not stored). `none` means the option was not
supplied, so the `DEFAULTS` value applies. -/
structure VoiceRecorderOptions where
  maxDuration : Option Nat := none
  maxSizeBytes : Option Nat := none
  bitrate : Option Nat := none
  sampleRate : Option Nat := none
deriving Repr, DecidableEq

/-! ## Worker-hosted encode session (`src/encode-worker.ts`) -/

/-- The `WORKER_READY_TIMEOUT_MS` from `src/encode-worker.ts`. -/
def WORKER_READY_TIMEOUT_MS : Nat := 5000

/-- Messages posted to the worker (the `WorkerCommand` union in
`src/encode-worker.ts`); PCM samples are abstracted to lists of
integers. -/
inductive WorkerMsg
  | initCmd
  | append (pcm : List Int)
  | flushCmd
  | closeCmd
deriving Repr, DecidableEq

/-- The fields of `WorkerEncodeSession` (`src/encode-worker.ts`) that
its control flow branches on, plus the log of messages it posted.
`flushPending` models `flushResolver !== null`. -/
structure WorkerEncodeSession where
  closed : Bool
  fatalError : Option String
  flushPending : Bool
  posted : List WorkerMsg
deriving Repr, DecidableEq

/-- The `WorkerEncodeSession.appendPcm`: a no-op once closed or after a
fatal error; otherwise posts an `append` message (fire-and-forget). -/
def WorkerEncodeSession.appendPcm (s : WorkerEncodeSession) (pcm : List Int) :
    WorkerEncodeSession :=
  if s.closed || s.fatalError.isSome then s
  else { s with posted := s.posted ++ [WorkerMsg.append pcm] }

/-- The synchronous outcome of a `WorkerEncodeSession.flush()` call. -/
inductive WFlushResult
  | rejectClosed
  | rejectFatal (msg : String)
  | rejectInProgress
  | pending
deriving Repr, DecidableEq

/-- The `WorkerEncodeSession.flush` (`src/encode-worker.ts`): rejects if the
session is closed, if a fatal error was recorded, or if a flush is
already in flight (`flushResolver` occupied); otherwise installs the
resolver and posts the flush command. -/
def WorkerEncodeSession.flush (s : WorkerEncodeSession) :
    WorkerEncodeSession × WFlushResult :=
  if s.closed then (s, WFlushResult.rejectClosed)
  else
    match s.fatalError with
    | some m => (s, WFlushResult.rejectFatal m)
    | none =>
      if s.flushPending then (s, WFlushResult.rejectInProgress)
      else
        ({ s with flushPending := true, posted := s.posted ++ [WorkerMsg.flushCmd] },
          WFlushResult.pending)

/-! ## Main-thread encode session (`src/encode-main-thread.ts`) -/

/-- The fields of `MainThreadEncodeSession` (`src/encode-main-thread.ts`).
`mp3Chunks` records the byte length of each accumulated compressed
chunk; `pendingChunks` is the queue of PCM chunks whose encoding jobs
sit on the internal `pending` promise chain; `encoderReady` models
`encoder !== null`. -/
structure MainThreadEncodeSession where
  closed : Bool
  fatalError : Option String
  mp3Chunks : List Nat
  pendingChunks : List (List Int)
  encoderReady : Bool
deriving Repr, DecidableEq

/-- The `MainThreadEncodeSession.appendPcm`: a no-op once closed or after a
fatal error; otherwise copies the chunk and queues an encoding job on
the `pending` promise chain. -/
def MainThreadEncodeSession.appendPcm (s : MainThreadEncodeSession)
    (pcm : List Int) : MainThreadEncodeSession :=
  if s.closed || s.fatalError.isSome then s
  else { s with pendingChunks := s.pendingChunks ++ [pcm] }

/-- The synchronous prefix of `MainThreadEncodeSession.flush()`: the
only check performed before the first `await` is `if (this.closed)
throw`; in every other case the call suspends (awaiting `initPromise`
and the `pending` chain) without touching session state. -/
inductive MTFlushCallPhase
  | rejectClosed
  | suspendedAwait
deriving Repr, DecidableEq

/-- Synchronous part of `MainThreadEncodeSession.flush`
(`src/encode-main-thread.ts`, the code before `await this.initPromise`). -/
def MainThreadEncodeSession.flushCallPhase (s : MainThreadEncodeSession) :
    MTFlushCallPhase :=
  if s.closed then MTFlushCallPhase.rejectClosed
  else MTFlushCallPhase.suspendedAwait

/-- Resumption of `MainThreadEncodeSession.flush` after the pending
chain has drained: surfaces a sticky fatal error, requires the encoder,
appends the final codec chunk (`encFlushLen` bytes, skipped when
empty), marks the session closed, and resolves with the concatenated
byte length.  Note that `closed` is NOT re-checked here — the check
happened only in the synchronous prefix. -/
def MainThreadEncodeSession.flushResume (s : MainThreadEncodeSession)
    (encFlushLen : Nat) : MainThreadEncodeSession × Except String Nat :=
  match s.fatalError with
  | some m => (s, Except.error m)
  | none =>
    if !s.encoderReady then
      (s, Except.error "MP3 encoder is not initialized.")
    else
      let chunks := if 0 < encFlushLen then s.mp3Chunks ++ [encFlushLen] else s.mp3Chunks
      ({ s with closed := true, mp3Chunks := chunks },
        Except.ok (chunks.foldl (· + ·) 0))

/-! ## Encode-session factory (`src/encode-worker.ts`) -/

/-- Outcome of the worker init handshake observed by
`WorkerEncodeSession.initialize`: the `ready` message arrived within the
timeout, the worker reported an error, or the 5000 ms timer fired
first. -/
inductive WorkerInitOutcome
  | ready
  | workerErrored (msg : String)
  | timedOut
deriving Repr, DecidableEq

/-- Result of `WorkerEncodeSession.initialize` (`src/encode-worker.ts`):
resolves only when the ready acknowledgment wins the race; rejects with
the error reported by the worker or with the timeout message. -/
def workerSessionInitialize : WorkerInitOutcome → Except String Unit
  | WorkerInitOutcome.ready => Except.ok ()
  | WorkerInitOutcome.workerErrored m => Except.error m
  | WorkerInitOutcome.timedOut =>
      Except.error "MP3 worker initialization timed out."

/-- Which session variant a factory call produced. -/
inductive EncodeSessionKind
  | workerHosted
  | mainThreadHosted
deriving Repr, DecidableEq

/-- The `createMp3EncodeSession` (`src/encode-worker.ts`): tries the worker
path (`new Worker` construction, then the init handshake); ANY failure
is caught inside the factory, which closes the partial session and
returns a main-thread session instead.  `workerCtorOk` models whether
`new Worker(...)` itself throws; `lamejsOk` models whether
`createMainThreadEncodeSession` (which awaits the lamejs codec load)
succeeds. -/
def createMp3EncodeSession (workerCtorOk : Bool) (init : WorkerInitOutcome)
    (lamejsOk : Bool) : Except String EncodeSessionKind :=
  if workerCtorOk then
    match workerSessionInitialize init with
    | Except.ok _ => Except.ok EncodeSessionKind.workerHosted
    | Except.error _ =>
      if lamejsOk then Except.ok EncodeSessionKind.mainThreadHosted
      else Except.error "Failed to load the lamejs MP3 encoder."
  else
    if lamejsOk then Except.ok EncodeSessionKind.mainThreadHosted
    else Except.error "Failed to load the lamejs MP3 encoder."

/-! ## The recorder controller (`src/voice-recorder-core.ts`)

Error message strings used by `runFinalizeRecording`. -/

/-- The "Recording too short" message (`src/voice-recorder-core.ts`). -/
def tooShortError : String :=
  "Recording too short. Hold for at least one second."

/-- Decode-failure message (`src/voice-recorder-core.ts`). -/
def decodeFailError : String :=
  "Couldn\x27t decode recording. Try again or use a different browser."

/-- Size-exceeded message (`src/voice-recorder-core.ts`). -/
def tooLargeError : String :=
  "Recording is too large. Try a shorter message."

/-- Message of the defensive `throw` taken when `metadata` is absent at
delivery time (`src/voice-recorder-core.ts`). -/
def metadataMissingError : String :=
  "Recording metadata was not created."

/-- The `MediaRecorder.state` values the controller branches on. -/
inductive MediaRecorderPhase
  | recording
  | inactive
deriving Repr, DecidableEq

/-- The fraction of the browser `MediaRecorder` object the controller
observes: its `state`, and whether its `stop()` call throws. -/
structure MediaRecorderModel where
  phase : MediaRecorderPhase
  stopThrows : Bool
deriving Repr, DecidableEq

/-- The `VoiceRecorder` controller fields (`src/voice-recorder-core.ts`)
that the lifecycle logic reads or writes.  `liveEncoderSession : Option
Unit` models nullability of the session handle (only its presence is
branched on); `recordingChunks` records the byte size of each
accumulated `MediaRecorder` blob; `finalizePromise` models
`finalizePromise !== null`. -/
structure VoiceRecorder where
  state : VoiceRecorderState
  options : VoiceRecorderOptions
  stopInProgress : Bool
  destroyed : Bool
  recordingChunks : List Nat
  liveEncoderSession : Option Unit
  livePcmFrameCount : Nat
  liveCaptureSampleRate : Nat
  finalizePromise : Bool
  mediaRecorder : Option MediaRecorderModel
deriving Repr, DecidableEq

/-- Externally observable events produced by the controller: state
snapshots delivered to subscribers (each effective `setState` emits the
merged state) and invocations of `onRecordingComplete`. -/
inductive REvent
  | snapshot (s : VoiceRecorderState)
  | callback (mp3Len : Nat) (meta : RecordingMetadata)
deriving Repr, DecidableEq

/-- Whether an event is an `onRecordingComplete` invocation. -/
def REvent.isCallback : REvent → Bool
  | REvent.callback _ _ => true
  | REvent.snapshot _ => false

/-! ### Finalization (`finalizeRecording` / `runFinalizeRecording`)

`runFinalizeRecording` is an `async` method: it executes atomically
between its `await` points.  Segment `i` is the code that runs after
the `i`-th suspension (segment `0` is the synchronous prefix).  A
`destroy()` call can only be interleaved at a suspension point;
`destroyedAt dk i` gives the value of `this.destroyed` while segment
`i` runs, where `dk = some k` means destroy fired before segment `k`
resumed (the flag is monotone).  `dk = none` means destroy is never
called during the run. -/

/-- Value of `this.destroyed` during segment `i`, when destroy fires
just before segment `k` (monotone flag). -/
def destroyedAt : Option Nat → Nat → Bool
  | none, _ => false
  | some k, i => decide (k ≤ i)

/-- The `setState` (`src/voice-recorder-core.ts`): merging happens and the
snapshot is emitted only when the controller is not destroyed. -/
def emitSet (destroyed : Bool) (i : Nat)
    (f : VoiceRecorderState → VoiceRecorderState) (st : VoiceRecorderState) :
    VoiceRecorderState × List (Nat × REvent) :=
  if destroyed then (st, [])
  else (f st, [(i, REvent.snapshot (f st))])

/-- Outcome of `liveEncoderSession.flush()` as observed by the
controller: resolved MP3 bytes (their length) or a rejection. -/
inductive FlushOutcome
  | flushedOk (mp3Len : Nat)
  | flushFailed
deriving Repr, DecidableEq

/-- Result of `decodeToPcm` as observed by the controller
(`channelData` is abstracted away; only `durationSec` reaches the
metadata). -/
inductive DecodeOutcome
  | decodedOk (durationSec : Nat)
  | decodeFailed
deriving Repr, DecidableEq

/-- Result of the one-shot `encodeToMp3`: the byte length of the
produced MP3, or a rejection message (which propagates to the outer
catch of `runFinalizeRecording`). -/
inductive EncodeOutcome
  | encodedOk (mp3Len : Nat)
  | encodeFailed (msg : String)
deriving Repr, DecidableEq

/-- Results of the external async collaborators consulted during one
finalization run: the live session flush, `decodeToPcm`, and the
one-shot `encodeToMp3`. -/
structure FinalizeEnv where
  flushOut : FlushOutcome
  decodeOut : DecodeOutcome
  encodeOut : EncodeOutcome
deriving Repr, DecidableEq

/-- Output of one `runFinalizeRecording` execution: the final stored
state, the tagged event log (`(segment index, event)` in emission
order), whether `decodeToPcm` was invoked, and the number of suspension
points the execution passed through. -/
structure FinalizeResult where
  finalState : VoiceRecorderState
  events : List (Nat × REvent)
  decodeAttempted : Bool
  suspCount : Nat
deriving Repr, DecidableEq

/-- The `Math.round(a / b)` on natural numbers (requires `0 < b`):
JavaScript rounds half away from zero, i.e. `⌊a/b + 1/2⌋`. -/
def mathRoundDiv (a b : Nat) : Nat := (2 * a + b) / (2 * b)

/-- The `finally` block of `runFinalizeRecording`, running in segment
`i`: clears accumulators and sets `isProcessing := false` (the
`setState` again guarded by `destroyed`). -/
def finalizeFinally (dk : Option Nat) (i : Nat) (st : VoiceRecorderState) :
    VoiceRecorderState × List (Nat × REvent) :=
  emitSet (destroyedAt dk i) i (fun s => { s with isProcessing := false }) st

/-- Tail of `runFinalizeRecording` once `mp3Data` is available, running
in segment `i`: the `maxSizeBytes` check, the defensive metadata check
(whose `throw` lands in the outer catch), the `destroyed` guard, the
`onRecordingComplete` invocation and the `error := null` clear, then
the `finally` block. -/
def sizeCheckAndDeliver (dk : Option Nat) (i : Nat) (maxSize : Nat)
    (mp3Len : Nat) (meta : Option RecordingMetadata)
    (st : VoiceRecorderState) (decAtt : Bool) : FinalizeResult :=
  if maxSize < mp3Len then
    let r1 := emitSet (destroyedAt dk i) i
      (fun s => { s with error := some tooLargeError }) st
    let r2 := finalizeFinally dk i r1.1
    { finalState := r2.1, events := r1.2 ++ r2.2, decodeAttempted := decAtt,
      suspCount := i }
  else
    match meta with
    | none =>
      let r1 := emitSet (destroyedAt dk i) i
        (fun s => { s with error := some metadataMissingError }) st
      let r2 := finalizeFinally dk i r1.1
      { finalState := r2.1, events := r1.2 ++ r2.2, decodeAttempted := decAtt,
        suspCount := i }
    | some m =>
      if destroyedAt dk i then
        let r2 := finalizeFinally dk i st
        { finalState := r2.1, events := r2.2, decodeAttempted := decAtt,
          suspCount := i }
      else
        let r1 := emitSet (destroyedAt dk i) i
          (fun s => { s with error := none }) st
        let r2 := finalizeFinally dk i r1.1
        { finalState := r2.1,
          events := (i, REvent.callback mp3Len m) :: (r1.2 ++ r2.2),
          decodeAttempted := decAtt, suspCount := i }

/-- The blob-fallback branch of `runFinalizeRecording`, entered in
segment `i`: requires at least one accumulated chunk (else the
too-short error), then awaits `decodeToPcm` (suspension, resuming in
segment `i+1`), then awaits `encodeToMp3` (suspension, resuming in
segment `i+2`), then hands over to the delivery tail. -/
def blobPath (r : VoiceRecorder) (env : FinalizeEnv) (dk : Option Nat)
    (i : Nat) (maxSize : Nat) (st : VoiceRecorderState) : FinalizeResult :=
  if r.recordingChunks.isEmpty then
    let r1 := emitSet (destroyedAt dk i) i
      (fun s => { s with error := some tooShortError }) st
    let r2 := finalizeFinally dk i r1.1
    { finalState := r2.1, events := r1.2 ++ r2.2, decodeAttempted := false,
      suspCount := i }
  else
    match env.decodeOut with
    | DecodeOutcome.decodeFailed =>
      let r1 := emitSet (destroyedAt dk (i + 1)) (i + 1)
        (fun s => { s with error := some decodeFailError }) st
      let r2 := finalizeFinally dk (i + 1) r1.1
      { finalState := r2.1, events := r1.2 ++ r2.2, decodeAttempted := true,
        suspCount := i + 1 }
    | DecodeOutcome.decodedOk durationSec =>
      match env.encodeOut with
      | EncodeOutcome.encodeFailed msg =>
        let r1 := emitSet (destroyedAt dk (i + 2)) (i + 2)
          (fun s => { s with error := some msg }) st
        let r2 := finalizeFinally dk (i + 2) r1.1
        { finalState := r2.1, events := r1.2 ++ r2.2, decodeAttempted := true,
          suspCount := i + 2 }
      | EncodeOutcome.encodedOk len =>
        sizeCheckAndDeliver dk (i + 2) maxSize len
          (some { durationSec := durationSec, sizeBytes := len,
                  mimeType := "audio/mpeg" })
          st true

/-- The `runFinalizeRecording` (`src/voice-recorder-core.ts`).  The live
branch is taken when a live session exists and at least one PCM frame
was appended; a `destroy()` that fired before segment 0 has already
closed the live session (`closeEncoderSession` nulls it and zeroes the
frame count), hence the `destroyedAt dk 0` conjunct.  On flush success
the duration is `Math.round(frames / captureRate)` (0 when the rate is
0) and delivery proceeds in segment 1; on flush rejection `mp3Data`
stays null and the blob fallback starts in segment 1. -/
def runFinalizeRecording (r : VoiceRecorder) (env : FinalizeEnv)
    (dk : Option Nat) : FinalizeResult :=
  let maxSize := r.options.maxSizeBytes.getD DEFAULTS.MAX_SIZE_BYTES
  if r.liveEncoderSession.isSome && decide (0 < r.livePcmFrameCount)
      && !(destroyedAt dk 0) then
    match env.flushOut with
    | FlushOutcome.flushedOk len =>
      let dur :=
        if 0 < r.liveCaptureSampleRate then
          mathRoundDiv r.livePcmFrameCount r.liveCaptureSampleRate
        else 0
      sizeCheckAndDeliver dk 1 maxSize len
        (some { durationSec := dur, sizeBytes := len, mimeType := "audio/mpeg" })
        r.state false
    | FlushOutcome.flushFailed => blobPath r env dk 1 maxSize r.state
  else
    blobPath r env dk 0 maxSize r.state

/-- The `finalizeRecording` (`src/voice-recorder-core.ts`): if a finalize
promise is already in flight it is returned as-is and no new run
starts; otherwise the slot is claimed and a run starts.  The returned
flag is `true` exactly when a new `runFinalizeRecording` execution was
started by this call. -/
def finalizeRecording (r : VoiceRecorder) : VoiceRecorder × Bool :=
  if r.finalizePromise then (r, false)
  else ({ r with finalizePromise := true }, true)

/-! ### `stop()` -/

/-- Result of a synchronous `stop()` call: the controller afterwards,
the snapshots it emitted (in order), and whether it started a new
finalization run synchronously (when `MediaRecorder` is absent,
inactive, or its `stop()` throws; otherwise finalization is deferred to
the `onstop` callback). -/
structure StopResult where
  recorder : VoiceRecorder
  events : List REvent
  finalizeStarted : Bool
deriving Repr, DecidableEq

/-- The `stop` (`src/voice-recorder-core.ts`): no-op when destroyed, not
recording, or a stop is already in progress.  Otherwise it sets the
guard, synchronously emits `{isRecording := false, isProcessing :=
true}`, tears down the audio pipeline (whose last act is
`setState({audioLevels := []})`), and then dispatches finalization
according to the `MediaRecorder` state. -/
def VoiceRecorder.stop (r : VoiceRecorder) : StopResult :=
  if r.destroyed || !r.state.isRecording || r.stopInProgress then
    { recorder := r, events := [], finalizeStarted := false }
  else
    let s1 := { r.state with isRecording := false, isProcessing := true }
    let s2 := { s1 with audioLevels := [] }
    let r2 := { r with stopInProgress := true, state := s2 }
    let evs := [REvent.snapshot s1, REvent.snapshot s2]
    match r2.mediaRecorder with
    | none =>
      let f := finalizeRecording r2
      { recorder := f.1, events := evs, finalizeStarted := f.2 }
    | some m =>
      if m.phase = MediaRecorderPhase.recording then
        if m.stopThrows then
          let f := finalizeRecording { r2 with mediaRecorder := none }
          { recorder := f.1, events := evs, finalizeStarted := f.2 }
        else
          { recorder := r2, events := evs, finalizeStarted := false }
      else
        let f := finalizeRecording { r2 with mediaRecorder := none }
        { recorder := f.1, events := evs, finalizeStarted := f.2 }

/-- The `recorder.onstop` handler installed by `startMediaRecorder`:
clears the `MediaRecorder` reference and invokes `finalizeRecording`. -/
def onstopHandler (r : VoiceRecorder) : VoiceRecorder × Bool :=
  finalizeRecording { r with mediaRecorder := none }

/-! ### The `setState` call sites

Every `setState` in `src/voice-recorder-core.ts`, as a pure state
update; each publicly emitted snapshot is the result of applying a
sequence of these updates to `INITIAL_STATE`. -/

/-- One `setState` call site of `src/voice-recorder-core.ts`. -/
inductive StateUpdate
  /-- The `clearError`: `{ error: null }`. -/
  | clearError
  /-- The `start`, unsupported environment: capability error message. -/
  | startUnsupported
  /-- The `start`: `{ error: null, elapsed: 0 }`. -/
  | startReset
  /-- The `start`, acquisition succeeded:
  `{ isRecording: true, isProcessing: false, elapsed: 0, error: null }`. -/
  | startActive
  /-- The `start` catch: `{ isRecording: false, isProcessing: false }`. -/
  | startFailReset
  /-- The `start` catch: one of the failure messages. -/
  | startFailError (msg : String)
  /-- elapsed-timer tick: `{ elapsed }`. -/
  | elapsedTick (e : Nat)
  /-- The `stop`: `{ isRecording: false, isProcessing: true }`. -/
  | stopRequest
  /-- analyser loop: `{ audioLevels }`. -/
  | levels (xs : List Nat)
  /-- The `stopAudioPipeline`: `{ audioLevels: [] }`. -/
  | levelsCleared
  /-- finalization error paths and outer catch: `{ error: msg }`. -/
  | finalizeError (msg : String)
  /-- finalization success: `{ error: null }`. -/
  | finalizeSuccess
  /-- finalization `finally`: `{ isProcessing: false }`. -/
  | finalizeDone
deriving Repr, DecidableEq

/-- Apply one `setState` call site to the stored state (the merge
`{...state, ...partial}`). -/
def applyUpdate (s : VoiceRecorderState) : StateUpdate → VoiceRecorderState
  | StateUpdate.clearError => { s with error := none }
  | StateUpdate.startUnsupported =>
      { s with
        error := some "Microphone recording is not supported in this environment." }
  | StateUpdate.startReset => { s with error := none, elapsed := 0 }
  | StateUpdate.startActive =>
      { s with isRecording := true, isProcessing := false, elapsed := 0,
               error := none }
  | StateUpdate.startFailReset =>
      { s with isRecording := false, isProcessing := false }
  | StateUpdate.startFailError msg => { s with error := some msg }
  | StateUpdate.elapsedTick e => { s with elapsed := e }
  | StateUpdate.stopRequest =>
      { s with isRecording := false, isProcessing := true }
  | StateUpdate.levels xs => { s with audioLevels := xs }
  | StateUpdate.levelsCleared => { s with audioLevels := [] }
  | StateUpdate.finalizeError msg => { s with error := some msg }
  | StateUpdate.finalizeSuccess => { s with error := none }
  | StateUpdate.finalizeDone => { s with isProcessing := false }

/-- The public invariant: a snapshot never shows `isRecording` and
`isProcessing` both true. -/
def flagsExclusive (s : VoiceRecorderState) : Prop :=
  ¬(s.isRecording = true ∧ s.isProcessing = true)

/-- Number of `onRecordingComplete` invocations in a tagged event log. -/
def callbackCount (evs : List (Nat × REvent)) : Nat :=
  evs.countP (fun e => e.2.isCallback)

/-! ### Concrete fixtures used to instantiate the theorems -/

/-- A freshly opened main-thread session holding one accumulated 10-byte
compressed chunk, with the codec initialized and the pending chain
drained. -/
def mtOpenSession : MainThreadEncodeSession :=
  { closed := false
    fatalError := none
    mp3Chunks := [10]
    pendingChunks := []
    encoderReady := true }

/-- A worker session with a flush currently in flight. -/
def wBusySession : WorkerEncodeSession :=
  { closed := false, fatalError := none, flushPending := true, posted := [] }

/-- A worker session that recorded a fatal runtime error. -/
def wFatalSession : WorkerEncodeSession :=
  { closed := false
    fatalError := some "Worker-based MP3 encoding failed."
    flushPending := false
    posted := [] }

/-- A controller captured right after `stop()`, with a live session
holding one second of 44100 Hz PCM and one accumulated blob chunk. -/
def liveRecorder : VoiceRecorder :=
  { state := { isRecording := false, isProcessing := true, elapsed := 1,
               error := none, audioLevels := [] }
    options := {}
    stopInProgress := true
    destroyed := false
    recordingChunks := [100]
    liveEncoderSession := some ()
    livePcmFrameCount := 44100
    liveCaptureSampleRate := 44100
    finalizePromise := true
    mediaRecorder := none }

/-- A controller in the middle of an active recording (before `stop()`). -/
def recordingRecorder : VoiceRecorder :=
  { liveRecorder with
    state := { isRecording := true, isProcessing := false, elapsed := 1,
               error := none, audioLevels := [3] }
    stopInProgress := false
    finalizePromise := false }

/-- An environment in which every collaborator succeeds. -/
def happyEnv : FinalizeEnv :=
  { flushOut := FlushOutcome.flushedOk 512
    decodeOut := DecodeOutcome.decodedOk 1
    encodeOut := EncodeOutcome.encodedOk 512 }

/-- The `happyEnv` with a rejecting live flush. -/
def flushFailEnv : FinalizeEnv :=
  { happyEnv with flushOut := FlushOutcome.flushFailed }

/-- The `happyEnv` with a 500-byte live flush result. -/
def bigFlushEnv : FinalizeEnv :=
  { happyEnv with flushOut := FlushOutcome.flushedOk 500 }

/-- A controller with no usable capture data at all: no live session,
zero appended frames, no accumulated chunks. -/
def noDataRecorder : VoiceRecorder :=
  { liveRecorder with
    liveEncoderSession := none
    livePcmFrameCount := 0
    recordingChunks := [] }

/-- The `liveRecorder` configured with a 100-byte size ceiling. -/
def smallLimitRecorder : VoiceRecorder :=
  { liveRecorder with options := { maxSizeBytes := some 100 } }

/-! ## Theorems -/

/-- The `emitSet` on a destroyed controller changes nothing and emits
nothing. -/
theorem emitSet_destroyed (i : Nat) (f : VoiceRecorderState → VoiceRecorderState)
    (st : VoiceRecorderState) : emitSet true i f st = (st, []) := rfl

/-- The `finalizeRecording` never changes the stored state. -/
theorem finalizeRecording_state (r : VoiceRecorder) :
    (finalizeRecording r).1.state = r.state := by
  unfold finalizeRecording
  split <;> rfl

/-- The `stop()` on a controller that is not recording is a no-op. -/
theorem stop_of_not_recording (r : VoiceRecorder)
    (h : r.state.isRecording = false) :
    VoiceRecorder.stop r = { recorder := r, events := [], finalizeStarted := false } := by
  unfold VoiceRecorder.stop
  simp [h]

/-- C10: for both encode-session variants, calling `appendPcm` after
`close()` or after a fatal encoding error has been recorded is a total
no-op: it returns without throwing and leaves the session state
(including the accumulated output) unchanged. -/
theorem append_after_close_or_fatal_is_noop :
    (∀ (s : MainThreadEncodeSession) (pcm : List Int),
        s.closed = true ∨ s.fatalError ≠ none →
        MainThreadEncodeSession.appendPcm s pcm = s) ∧
    (∀ (w : WorkerEncodeSession) (pcm : List Int),
        w.closed = true ∨ w.fatalError ≠ none →
        WorkerEncodeSession.appendPcm w pcm = w) := by
  constructor
  · intro s pcm h
    unfold MainThreadEncodeSession.appendPcm
    rcases h with h | h
    · simp [h]
    · simp [Option.isSome_iff_ne_none.mpr h]
  · intro w pcm h
    unfold WorkerEncodeSession.appendPcm
    rcases h with h | h
    · simp [h]
    · simp [Option.isSome_iff_ne_none.mpr h]

/-- Witness for C10: a closed main-thread session and a worker session
with a fatal error are both left untouched by `appendPcm`. -/
theorem append_after_close_or_fatal_is_noop_witness :
    MainThreadEncodeSession.appendPcm { mtOpenSession with closed := true } [1, 2] =
      { mtOpenSession with closed := true } ∧
    WorkerEncodeSession.appendPcm wFatalSession [1, 2] = wFatalSession :=
  ⟨append_after_close_or_fatal_is_noop.1 _ [1, 2] (Or.inl rfl),
   append_after_close_or_fatal_is_noop.2 _ [1, 2] (Or.inr (by decide))⟩

/-- C3 counterexample: on the main-thread variant a second `flush()`
issued while the first is still outstanding does NOT fail.  The only
synchronous check in `MainThreadEncodeSession.flush` is the `closed`
flag, which is set only when the first flush completes; so while the
first flush is suspended the session state is unchanged, the second
call also suspends, and once the chain drains both flushes resolve
successfully (the second even re-delivers the accumulated chunks plus a
duplicate final codec chunk). -/
theorem mainThread_second_flush_not_rejected :
    mtOpenSession.flushCallPhase = MTFlushCallPhase.suspendedAwait ∧
    ¬ mtOpenSession.flushCallPhase = MTFlushCallPhase.rejectClosed ∧
    (mtOpenSession.flushResume 5).2 = Except.ok 15 ∧
    ((mtOpenSession.flushResume 5).1.flushResume 5).2 = Except.ok 20 :=
  ⟨rfl, by decide, rfl, rfl⟩

/-- C3 (amended): the worker-hosted variant rejects a second `flush()`
made while a previous flush is outstanding; the main-thread variant has
no such guard — its `flush()` rejects synchronously only when the
session is already closed (i.e. after `close()` or after a first flush
has completed), and a flush issued while another is merely outstanding
is not rejected. -/
theorem flush_concurrency_guard_amended :
    (∀ s : WorkerEncodeSession,
        s.closed = false → s.fatalError = none → s.flushPending = true →
        (WorkerEncodeSession.flush s).2 = WFlushResult.rejectInProgress) ∧
    (∀ s : MainThreadEncodeSession,
        s.flushCallPhase = MTFlushCallPhase.rejectClosed ↔ s.closed = true) := by
  constructor
  · intro s h1 h2 h3
    unfold WorkerEncodeSession.flush
    simp [h1, h2, h3]
  · intro s
    unfold MainThreadEncodeSession.flushCallPhase
    by_cases h : s.closed = true <;> simp [h]

/-- Witness for the amended C3: the busy worker session rejects its
second flush; the open main-thread session does not reject at call
time. -/
theorem flush_concurrency_guard_amended_witness :
    (WorkerEncodeSession.flush wBusySession).2 = WFlushResult.rejectInProgress ∧
    (mtOpenSession.flushCallPhase = MTFlushCallPhase.rejectClosed ↔
      mtOpenSession.closed = true) :=
  ⟨flush_concurrency_guard_amended.1 wBusySession rfl rfl rfl,
   flush_concurrency_guard_amended.2 mtOpenSession⟩

/-- C8: if the worker cannot be constructed, reports an error during
initialization, or does not acknowledge ready within the 5000 ms
handshake timeout, `createMp3EncodeSession` resolves with a main-thread
session instead of rejecting; the `initialize` of the worker session itself
merely rejects, and the fallback happens in the factory. -/
theorem worker_failure_factory_falls_back :
    (∀ init : WorkerInitOutcome,
        createMp3EncodeSession false init true =
          Except.ok EncodeSessionKind.mainThreadHosted) ∧
    (∀ msg : String,
        createMp3EncodeSession true (WorkerInitOutcome.workerErrored msg) true =
            Except.ok EncodeSessionKind.mainThreadHosted ∧
          workerSessionInitialize (WorkerInitOutcome.workerErrored msg) =
            Except.error msg) ∧
    (createMp3EncodeSession true WorkerInitOutcome.timedOut true =
        Except.ok EncodeSessionKind.mainThreadHosted ∧
      workerSessionInitialize WorkerInitOutcome.timedOut =
        Except.error "MP3 worker initialization timed out.") ∧
    WORKER_READY_TIMEOUT_MS = 5000 := by
  refine ⟨fun init => rfl, fun msg => ⟨rfl, rfl⟩, ⟨rfl, rfl⟩, rfl⟩

/-- Witness for C8 at concrete inputs. -/
theorem worker_failure_factory_falls_back_witness :
    createMp3EncodeSession false WorkerInitOutcome.ready true =
        Except.ok EncodeSessionKind.mainThreadHosted ∧
      createMp3EncodeSession true (WorkerInitOutcome.workerErrored "boom") true =
        Except.ok EncodeSessionKind.mainThreadHosted :=
  ⟨worker_failure_factory_falls_back.1 WorkerInitOutcome.ready,
   (worker_failure_factory_falls_back.2.1 "boom").1⟩

/-- The `emitSet` emits no callback event. -/
theorem callbackCount_emitSet (d : Bool) (i : Nat)
    (f : VoiceRecorderState → VoiceRecorderState) (st : VoiceRecorderState) :
    callbackCount (emitSet d i f st).2 = 0 := by
  cases d <;> simp [emitSet, callbackCount, REvent.isCallback]

/-- The `finally` block emits no callback event. -/
theorem callbackCount_finalizeFinally (dk : Option Nat) (i : Nat)
    (st : VoiceRecorderState) : callbackCount (finalizeFinally dk i st).2 = 0 :=
  callbackCount_emitSet _ _ _ _

/-- The `callbackCount` distributes over append. -/
theorem callbackCount_append (l1 l2 : List (Nat × REvent)) :
    callbackCount (l1 ++ l2) = callbackCount l1 + callbackCount l2 := by
  simp [callbackCount, List.countP_append]

/-- The `callbackCount` of a cons. -/
theorem callbackCount_cons (a : Nat × REvent) (l : List (Nat × REvent)) :
    callbackCount (a :: l) = callbackCount l + (if a.2.isCallback then 1 else 0) := by
  simp [callbackCount, List.countP_cons]

/-- The delivery tail invokes the callback at most once. -/
theorem callbackCount_sizeCheckAndDeliver (dk : Option Nat) (i maxSize mp3Len : Nat)
    (meta : Option RecordingMetadata) (st : VoiceRecorderState) (decAtt : Bool) :
    callbackCount (sizeCheckAndDeliver dk i maxSize mp3Len meta st decAtt).events ≤ 1 := by
  unfold sizeCheckAndDeliver
  split
  · simp [callbackCount_append, callbackCount_emitSet, callbackCount_finalizeFinally]
  · split
    · simp [callbackCount_append, callbackCount_emitSet, callbackCount_finalizeFinally]
    · split
      · simp [callbackCount_finalizeFinally]
      · dsimp only
        rw [callbackCount_cons, callbackCount_append, callbackCount_emitSet,
          callbackCount_finalizeFinally]
        simp [REvent.isCallback]

/-- The blob fallback invokes the callback at most once. -/
theorem callbackCount_blobPath (r : VoiceRecorder) (env : FinalizeEnv)
    (dk : Option Nat) (i maxSize : Nat) (st : VoiceRecorderState) :
    callbackCount (blobPath r env dk i maxSize st).events ≤ 1 := by
  unfold blobPath
  split
  · simp [callbackCount_append, callbackCount_emitSet, callbackCount_finalizeFinally]
  · split
    · simp [callbackCount_append, callbackCount_emitSet, callbackCount_finalizeFinally]
    · split
      · simp [callbackCount_append, callbackCount_emitSet, callbackCount_finalizeFinally]
      · exact callbackCount_sizeCheckAndDeliver _ _ _ _ _ _ _

/-- A single finalization run invokes the callback at most once. -/
theorem callbackCount_runFinalize (r : VoiceRecorder) (env : FinalizeEnv)
    (dk : Option Nat) :
    callbackCount (runFinalizeRecording r env dk).events ≤ 1 := by
  unfold runFinalizeRecording
  split
  · split
    · exact callbackCount_sizeCheckAndDeliver _ _ _ _ _ _ _
    · exact callbackCount_blobPath _ _ _ _ _ _
  · exact callbackCount_blobPath _ _ _ _ _ _

/-- Either `stop()` left the controller not recording, or it was a
guarded no-op. -/
theorem stop_cases (r : VoiceRecorder) :
    (VoiceRecorder.stop r).recorder.state.isRecording = false ∨
    VoiceRecorder.stop r = { recorder := r, events := [], finalizeStarted := false } := by
  unfold VoiceRecorder.stop
  split
  · right; rfl
  · left
    dsimp only
    split
    · simp [finalizeRecording_state]
    · split
      · split
        · simp [finalizeRecording_state]
        · rfl
      · simp [finalizeRecording_state]

/-- C2: a second `stop()` arriving before the teardown of the first stop
completes is a no-op (it emits nothing and starts nothing); a finalize
request while one is pending returns the in-flight one without
starting a second run; and any single finalization run invokes
`onRecordingComplete` at most once. -/
theorem double_stop_single_finalization :
    (∀ r : VoiceRecorder,
        VoiceRecorder.stop (VoiceRecorder.stop r).recorder =
          { recorder := (VoiceRecorder.stop r).recorder, events := [],
            finalizeStarted := false }) ∧
    (∀ r : VoiceRecorder,
        r.finalizePromise = true → finalizeRecording r = (r, false)) ∧
    (∀ (r : VoiceRecorder) (env : FinalizeEnv) (dk : Option Nat),
        callbackCount (runFinalizeRecording r env dk).events ≤ 1) := by
  refine ⟨?_, ?_, ?_⟩
  · intro r
    rcases stop_cases r with h | h
    · exact stop_of_not_recording _ h
    · rw [h]
      exact h
  · intro r h
    unfold finalizeRecording
    rw [if_pos h]
  · exact callbackCount_runFinalize

/-- Witness for C2 at concrete inputs. -/
theorem double_stop_single_finalization_witness :
    VoiceRecorder.stop (VoiceRecorder.stop recordingRecorder).recorder =
      { recorder := (VoiceRecorder.stop recordingRecorder).recorder, events := [],
        finalizeStarted := false } ∧
    finalizeRecording liveRecorder = (liveRecorder, false) ∧
    callbackCount (runFinalizeRecording liveRecorder happyEnv none).events ≤ 1 :=
  ⟨double_stop_single_finalization.1 recordingRecorder,
   double_stop_single_finalization.2.1 liveRecorder rfl,
   double_stop_single_finalization.2.2 liveRecorder happyEnv none⟩

/-- Every `setState` call site of the controller preserves the
exclusivity of `isRecording` and `isProcessing`. -/
theorem applyUpdate_preserves (s : VoiceRecorderState) (u : StateUpdate)
    (h : flagsExclusive s) : flagsExclusive (applyUpdate s u) := by
  cases u <;> simp_all [applyUpdate, flagsExclusive]

/-- The exclusivity invariant holds after any sequence of `setState`
call sites. -/
theorem foldl_applyUpdate_preserves :
    ∀ (l : List StateUpdate) (s : VoiceRecorderState),
      flagsExclusive s → flagsExclusive (l.foldl applyUpdate s)
  | [], _, h => h
  | u :: t, s, h => foldl_applyUpdate_preserves t _ (applyUpdate_preserves s u h)

/-- C9: in every publicly observable snapshot (any state reachable from
`INITIAL_STATE` by the `setState` call sites of the controller),
`isRecording` and `isProcessing` are never both true; and the snapshot
emitted synchronously by a `stop()` call shows `isRecording = false`
and `isProcessing = true` (followed only by the audio-level clear)
before any finalization work. -/
theorem snapshot_flags_never_both_true :
    (∀ l : List StateUpdate, flagsExclusive (l.foldl applyUpdate INITIAL_STATE)) ∧
    (∀ r : VoiceRecorder,
        r.destroyed = false → r.state.isRecording = true → r.stopInProgress = false →
        (VoiceRecorder.stop r).events =
          [REvent.snapshot { r.state with isRecording := false, isProcessing := true },
           REvent.snapshot
             { r.state with isRecording := false, isProcessing := true,
                            audioLevels := [] }]) := by
  constructor
  · intro l
    exact foldl_applyUpdate_preserves l INITIAL_STATE
      (by simp [flagsExclusive, INITIAL_STATE])
  · intro r h1 h2 h3
    unfold VoiceRecorder.stop
    rw [if_neg (by simp [h1, h2, h3])]
    dsimp only
    split
    · rfl
    · split
      · split
        · rfl
        · rfl
      · rfl

/-- Rounding characterization: when twice the remainder is below the
divisor, `Math.round(a / b)` is the floor `a / b`. -/
theorem mathRoundDiv_of_lt (a b : Nat) (hb : 0 < b) (h : 2 * (a % b) < b) :
    mathRoundDiv a b = a / b := by
  unfold mathRoundDiv
  have key : 2 * a + b = (2 * (a % b) + b) + (2 * b) * (a / b) := by
    conv_lhs => rw [← Nat.div_add_mod a b]
    ring
  rw [key, Nat.add_mul_div_left _ _ (by omega : 0 < 2 * b)]
  rw [Nat.div_eq_of_lt (by omega)]
  exact Nat.zero_add _

/-- Rounding characterization: when twice the remainder reaches the
divisor, `Math.round(a / b)` is the floor plus one (half rounds up). -/
theorem mathRoundDiv_of_ge (a b : Nat) (hb : 0 < b) (h : b ≤ 2 * (a % b)) :
    mathRoundDiv a b = a / b + 1 := by
  unfold mathRoundDiv
  have hr : a % b < b := Nat.mod_lt a hb
  have key : 2 * a + b = (2 * (a % b) + b) + (2 * b) * (a / b) := by
    conv_lhs => rw [← Nat.div_add_mod a b]
    ring
  rw [key, Nat.add_mul_div_left _ _ (by omega : 0 < 2 * b)]
  have hone : (2 * (a % b) + b) / (2 * b) = 1 := by
    apply Nat.div_eq_of_lt_le <;> omega
  rw [hone]
  exact Nat.add_comm _ _

/-- The `destroyedAt` is monotone in the segment index. -/
theorem destroyedAt_of_le (k i : Nat) (h : k ≤ i) :
    destroyedAt (some k) i = true := by
  simp [destroyedAt, h]

/-- The `finally` block on a destroyed controller changes and emits
nothing. -/
theorem finalizeFinally_destroyed (dk : Option Nat) (i : Nat)
    (st : VoiceRecorderState) (h : destroyedAt dk i = true) :
    finalizeFinally dk i st = (st, []) := by
  unfold finalizeFinally
  rw [h]
  rfl

/-- The delivery tail always reports `i` suspensions. -/
theorem sizeCheckAndDeliver_suspCount (dk : Option Nat) (i maxSize mp3Len : Nat)
    (meta : Option RecordingMetadata) (st : VoiceRecorderState) (decAtt : Bool) :
    (sizeCheckAndDeliver dk i maxSize mp3Len meta st decAtt).suspCount = i := by
  unfold sizeCheckAndDeliver
  split
  · rfl
  · split
    · rfl
    · split
      · rfl
      · rfl

/-- The delivery tail on a destroyed controller emits nothing and
leaves the state untouched. -/
theorem sizeCheckAndDeliver_destroyed (dk : Option Nat) (i maxSize mp3Len : Nat)
    (meta : Option RecordingMetadata) (st : VoiceRecorderState) (decAtt : Bool)
    (h : destroyedAt dk i = true) :
    sizeCheckAndDeliver dk i maxSize mp3Len meta st decAtt =
      { finalState := st, events := [], decodeAttempted := decAtt, suspCount := i } := by
  unfold sizeCheckAndDeliver finalizeFinally
  rw [h]
  split
  · simp [emitSet]
  · split
    · simp [emitSet]
    · simp [emitSet]

/-- Successful delivery (no destroy, size within limit): the callback
fires once, the error clears, processing ends. -/
theorem sizeCheckAndDeliver_delivers (i maxSize mp3Len : Nat)
    (m : RecordingMetadata) (st : VoiceRecorderState) (decAtt : Bool)
    (h : mp3Len ≤ maxSize) :
    sizeCheckAndDeliver none i maxSize mp3Len (some m) st decAtt =
      { finalState := { st with error := none, isProcessing := false }
        events := [(i, REvent.callback mp3Len m),
                   (i, REvent.snapshot { st with error := none }),
                   (i, REvent.snapshot { st with error := none, isProcessing := false })]
        decodeAttempted := decAtt, suspCount := i } := by
  unfold sizeCheckAndDeliver
  rw [if_neg (by omega : ¬ maxSize < mp3Len)]
  simp [emitSet, finalizeFinally, destroyedAt]

/-- Oversized delivery (no destroy): the size-exceeded error is set and
no callback fires. -/
theorem sizeCheckAndDeliver_tooLarge (i maxSize mp3Len : Nat)
    (meta : Option RecordingMetadata) (st : VoiceRecorderState) (decAtt : Bool)
    (h : maxSize < mp3Len) :
    sizeCheckAndDeliver none i maxSize mp3Len meta st decAtt =
      { finalState := { st with error := some tooLargeError, isProcessing := false }
        events := [(i, REvent.snapshot { st with error := some tooLargeError }),
                   (i, REvent.snapshot
                       { st with error := some tooLargeError, isProcessing := false })]
        decodeAttempted := decAtt, suspCount := i } := by
  unfold sizeCheckAndDeliver
  rw [if_pos h]
  simp [emitSet, finalizeFinally, destroyedAt]

/-- The blob fallback with no accumulated chunks (no destroy): too-short
error, decode never attempted. -/
theorem blobPath_empty_chunks (r : VoiceRecorder) (env : FinalizeEnv)
    (i maxSize : Nat) (st : VoiceRecorderState) (h : r.recordingChunks = []) :
    blobPath r env none i maxSize st =
      { finalState := { st with error := some tooShortError, isProcessing := false }
        events := [(i, REvent.snapshot { st with error := some tooShortError }),
                   (i, REvent.snapshot
                       { st with error := some tooShortError, isProcessing := false })]
        decodeAttempted := false, suspCount := i } := by
  unfold blobPath
  simp [h, emitSet, finalizeFinally, destroyedAt]

/-- If destroy fires at or before the last suspension the blob fallback
passes through, it emits nothing and leaves the state untouched. -/
theorem blobPath_destroyed (r : VoiceRecorder) (env : FinalizeEnv)
    (k i maxSize : Nat) (st : VoiceRecorderState)
    (h : k ≤ (blobPath r env (some k) i maxSize st).suspCount) :
    (blobPath r env (some k) i maxSize st).events = [] ∧
    (blobPath r env (some k) i maxSize st).finalState = st := by
  unfold blobPath at h ⊢
  cases hce : r.recordingChunks.isEmpty with
  | true =>
    simp only [hce, if_true] at h ⊢
    have hd := destroyedAt_of_le k i (by simpa using h)
    simp [hd, emitSet, finalizeFinally]
  | false =>
    simp only [hce, Bool.false_eq_true, if_false] at h ⊢
    cases hdec : env.decodeOut with
    | decodeFailed =>
      simp only [hdec] at h ⊢
      have hd := destroyedAt_of_le k (i + 1) (by simpa using h)
      simp [hd, emitSet, finalizeFinally]
    | decodedOk d =>
      simp only [hdec] at h ⊢
      cases henc : env.encodeOut with
      | encodeFailed msg =>
        simp only [henc] at h ⊢
        have hd := destroyedAt_of_le k (i + 2) (by simpa using h)
        simp [hd, emitSet, finalizeFinally]
      | encodedOk len =>
        simp only [henc] at h ⊢
        rw [sizeCheckAndDeliver_suspCount] at h
        rw [sizeCheckAndDeliver_destroyed _ _ _ _ _ _ _ (destroyedAt_of_le k (i + 2) h)]
        exact ⟨rfl, rfl⟩

/-- C1: if `destroy()` is called at any point before a finalization run
completes (at or before one of the suspension points the run passes
through), the run emits nothing at all: `onRecordingComplete` is never
invoked, no error is written to the state, and the stored state is left
exactly as it was — the in-flight result is discarded silently. -/
theorem destroy_during_finalization_discards :
    ∀ (r : VoiceRecorder) (env : FinalizeEnv) (k : Nat),
      k ≤ (runFinalizeRecording r env (some k)).suspCount →
      (runFinalizeRecording r env (some k)).events = [] ∧
      (runFinalizeRecording r env (some k)).finalState = r.state := by
  intro r env k h
  unfold runFinalizeRecording at h ⊢
  by_cases hc : (r.liveEncoderSession.isSome && decide (0 < r.livePcmFrameCount)
      && !(destroyedAt (some k) 0)) = true
  · rw [if_pos hc] at h ⊢
    cases hf : env.flushOut with
    | flushedOk len =>
      simp only [hf] at h ⊢
      rw [sizeCheckAndDeliver_suspCount] at h
      rw [sizeCheckAndDeliver_destroyed _ _ _ _ _ _ _ (destroyedAt_of_le k 1 h)]
      exact ⟨rfl, rfl⟩
    | flushFailed =>
      simp only [hf] at h ⊢
      exact blobPath_destroyed r env k 1 _ r.state h
  · rw [if_neg hc] at h ⊢
    exact blobPath_destroyed r env k 0 _ r.state h

/-- Witness for C1: destroy at the flush suspension of a live-path run. -/
theorem destroy_during_finalization_discards_witness :
    1 ≤ (runFinalizeRecording liveRecorder happyEnv (some 1)).suspCount ∧
    (runFinalizeRecording liveRecorder happyEnv (some 1)).events = [] ∧
    (runFinalizeRecording liveRecorder happyEnv (some 1)).finalState =
      liveRecorder.state :=
  ⟨by decide, destroy_during_finalization_discards liveRecorder happyEnv 1 (by decide)⟩

/-- C4: if the flush of the live session rejects during finalization, the
flush error is not surfaced: the run falls through to the blob path
(decode the accumulated blobs, one-shot encode) and still delivers a
successful result — the callback fires with the blob-path bytes and
metadata, and the final error is cleared. -/
theorem flush_error_falls_back :
    ∀ (r : VoiceRecorder) (env : FinalizeEnv) (d len : Nat),
      r.liveEncoderSession.isSome = true →
      0 < r.livePcmFrameCount →
      env.flushOut = FlushOutcome.flushFailed →
      r.recordingChunks ≠ [] →
      env.decodeOut = DecodeOutcome.decodedOk d →
      env.encodeOut = EncodeOutcome.encodedOk len →
      len ≤ r.options.maxSizeBytes.getD DEFAULTS.MAX_SIZE_BYTES →
      runFinalizeRecording r env none =
        { finalState := { r.state with error := none, isProcessing := false }
          events := [(3, REvent.callback len
                        { durationSec := d, sizeBytes := len, mimeType := "audio/mpeg" }),
                     (3, REvent.snapshot { r.state with error := none }),
                     (3, REvent.snapshot
                         { r.state with error := none, isProcessing := false })]
          decodeAttempted := true
          suspCount := 3 } := by
  intro r env d len h1 h2 h3 h4 h5 h6 h7
  have hce : r.recordingChunks.isEmpty = false := by
    cases hcl : r.recordingChunks with
    | nil => exact absurd hcl h4
    | cons a t => rfl
  unfold runFinalizeRecording
  rw [if_pos (by simp [h1, h2, destroyedAt])]
  rw [h3]
  unfold blobPath
  rw [hce]
  simp only [Bool.false_eq_true, if_false, h5, h6]
  exact sizeCheckAndDeliver_delivers 3 _ len _ r.state true h7

/-- Witness for C4: flush fails, blob path succeeds, callback fires. -/
theorem flush_error_falls_back_witness :
    runFinalizeRecording liveRecorder flushFailEnv none =
      { finalState := { isRecording := false, isProcessing := false, elapsed := 1,
                        error := none, audioLevels := [] }
        events := [(3, REvent.callback 512
                      { durationSec := 1, sizeBytes := 512, mimeType := "audio/mpeg" }),
                   (3, REvent.snapshot
                       { isRecording := false, isProcessing := true, elapsed := 1,
                         error := none, audioLevels := [] }),
                   (3, REvent.snapshot
                       { isRecording := false, isProcessing := false, elapsed := 1,
                         error := none, audioLevels := [] })]
        decodeAttempted := true
        suspCount := 3 } :=
  flush_error_falls_back liveRecorder flushFailEnv 1 512 rfl (by decide) rfl (by decide)
    rfl rfl (by decide)

/-- C5: when finalization has no usable live output (no live session,
zero appended frames, or a failed flush) and zero accumulated blob
chunks, the too-short error is set, decoding is never attempted, and
the callback never fires. -/
theorem too_short_without_any_data :
    ∀ (r : VoiceRecorder) (env : FinalizeEnv),
      (r.liveEncoderSession.isSome = false ∨ r.livePcmFrameCount = 0 ∨
        env.flushOut = FlushOutcome.flushFailed) →
      r.recordingChunks = [] →
      (runFinalizeRecording r env none).finalState.error = some tooShortError ∧
      (runFinalizeRecording r env none).decodeAttempted = false ∧
      callbackCount (runFinalizeRecording r env none).events = 0 := by
  intro r env hlive hchunks
  unfold runFinalizeRecording
  by_cases hc : (r.liveEncoderSession.isSome && decide (0 < r.livePcmFrameCount)
      && !(destroyedAt none 0)) = true
  · have hflush : env.flushOut = FlushOutcome.flushFailed := by
      rcases hlive with h | h | h
      · rw [h] at hc
        simp at hc
      · rw [h] at hc
        simp at hc
      · exact h
    rw [if_pos hc, hflush]
    rw [blobPath_empty_chunks r env 1 _ r.state hchunks]
    refine ⟨rfl, rfl, ?_⟩
    simp [callbackCount, List.countP_cons, REvent.isCallback]
  · rw [if_neg hc]
    rw [blobPath_empty_chunks r env 0 _ r.state hchunks]
    refine ⟨rfl, rfl, ?_⟩
    simp [callbackCount, List.countP_cons, REvent.isCallback]

/-- Witness for C5: no live session, no frames, no chunks. -/
theorem too_short_without_any_data_witness :
    (runFinalizeRecording noDataRecorder happyEnv none).finalState.error =
      some tooShortError ∧
    (runFinalizeRecording noDataRecorder happyEnv none).decodeAttempted = false ∧
    callbackCount (runFinalizeRecording noDataRecorder happyEnv none).events = 0 :=
  too_short_without_any_data noDataRecorder happyEnv (Or.inl rfl) rfl

/-- C6: whenever the final encoded MP3 length exceeds the configured
`maxSizeBytes` (on either the live path or the blob path), the
size-exceeded error is set and the callback never fires — the bytes are
discarded; and the default ceiling is 26214400 bytes. -/
theorem oversized_output_discarded :
    (∀ (r : VoiceRecorder) (env : FinalizeEnv) (len : Nat),
        r.liveEncoderSession.isSome = true →
        0 < r.livePcmFrameCount →
        env.flushOut = FlushOutcome.flushedOk len →
        r.options.maxSizeBytes.getD DEFAULTS.MAX_SIZE_BYTES < len →
        (runFinalizeRecording r env none).finalState.error = some tooLargeError ∧
        callbackCount (runFinalizeRecording r env none).events = 0) ∧
    (∀ (r : VoiceRecorder) (env : FinalizeEnv) (d len : Nat),
        r.liveEncoderSession.isSome = false →
        r.recordingChunks ≠ [] →
        env.decodeOut = DecodeOutcome.decodedOk d →
        env.encodeOut = EncodeOutcome.encodedOk len →
        r.options.maxSizeBytes.getD DEFAULTS.MAX_SIZE_BYTES < len →
        (runFinalizeRecording r env none).finalState.error = some tooLargeError ∧
        callbackCount (runFinalizeRecording r env none).events = 0) ∧
    DEFAULTS.MAX_SIZE_BYTES = 26214400 := by
  refine ⟨?_, ?_, rfl⟩
  · intro r env len h1 h2 h3 h4
    unfold runFinalizeRecording
    rw [if_pos (by simp [h1, h2, destroyedAt]), h3]
    dsimp only
    rw [sizeCheckAndDeliver_tooLarge 1 _ len _ r.state false h4]
    refine ⟨rfl, ?_⟩
    simp [callbackCount, List.countP_cons, REvent.isCallback]
  · intro r env d len h1 h2 h3 h4 h5
    have hce : r.recordingChunks.isEmpty = false := by
      cases hcl : r.recordingChunks with
      | nil => exact absurd hcl h2
      | cons a t => rfl
    unfold runFinalizeRecording
    rw [if_neg (by simp [h1])]
    unfold blobPath
    rw [hce]
    simp only [Bool.false_eq_true, if_false, h3, h4]
    rw [sizeCheckAndDeliver_tooLarge 2 _ len _ r.state true h5]
    refine ⟨rfl, ?_⟩
    simp [callbackCount, List.countP_cons, REvent.isCallback]

/-- Witness for C6: a 100-byte limit rejects a 500-byte flush result. -/
theorem oversized_output_discarded_witness :
    (runFinalizeRecording smallLimitRecorder bigFlushEnv none).finalState.error =
      some tooLargeError ∧
    callbackCount (runFinalizeRecording smallLimitRecorder bigFlushEnv none).events = 0 :=
  oversized_output_discarded.1 smallLimitRecorder bigFlushEnv 500 rfl (by decide) rfl
    (by decide)

/-- C7: on a successful live-path finalization, `durationSec` is the
total appended PCM frame count divided by the capture sample rate,
rounded to the nearest whole second (JavaScript `Math.round`); in
particular 44100 frames at 44100 Hz give exactly 1 second. -/
theorem live_duration_rounded :
    (∀ (r : VoiceRecorder) (env : FinalizeEnv) (len : Nat),
        r.liveEncoderSession.isSome = true →
        0 < r.livePcmFrameCount →
        0 < r.liveCaptureSampleRate →
        env.flushOut = FlushOutcome.flushedOk len →
        len ≤ r.options.maxSizeBytes.getD DEFAULTS.MAX_SIZE_BYTES →
        (runFinalizeRecording r env none).events =
          [(1, REvent.callback len
              { durationSec := mathRoundDiv r.livePcmFrameCount r.liveCaptureSampleRate,
                sizeBytes := len, mimeType := "audio/mpeg" }),
           (1, REvent.snapshot { r.state with error := none }),
           (1, REvent.snapshot { r.state with error := none, isProcessing := false })]) ∧
    mathRoundDiv 44100 44100 = 1 := by
  refine ⟨?_, rfl⟩
  intro r env len h1 h2 h3 h4 h5
  unfold runFinalizeRecording
  rw [if_pos (by simp [h1, h2, destroyedAt]), h4]
  dsimp only
  rw [if_pos h3]
  rw [sizeCheckAndDeliver_delivers 1 _ len _ r.state false h5]

/-- Witness for C7: one second of 44100 Hz PCM yields `durationSec = 1`. -/
theorem live_duration_rounded_witness :
    (runFinalizeRecording liveRecorder happyEnv none).events =
      [(1, REvent.callback 512
          { durationSec := 1, sizeBytes := 512, mimeType := "audio/mpeg" }),
       (1, REvent.snapshot { isRecording := false, isProcessing := true, elapsed := 1,
                             error := none, audioLevels := [] }),
       (1, REvent.snapshot { isRecording := false, isProcessing := false, elapsed := 1,
                             error := none, audioLevels := [] })] ∧
    mathRoundDiv 44100 44100 = 1 :=
  ⟨live_duration_rounded.1 liveRecorder happyEnv 512 rfl (by decide) (by decide) rfl
      (by decide),
   live_duration_rounded.2⟩

/-- Witness for C9 at concrete inputs. -/
theorem snapshot_flags_never_both_true_witness :
    flagsExclusive
      ([StateUpdate.startActive, StateUpdate.stopRequest,
        StateUpdate.finalizeDone].foldl applyUpdate INITIAL_STATE) ∧
    (VoiceRecorder.stop recordingRecorder).events =
      [REvent.snapshot { isRecording := false, isProcessing := true, elapsed := 1,
                         error := none, audioLevels := [3] },
       REvent.snapshot { isRecording := false, isProcessing := true, elapsed := 1,
                         error := none, audioLevels := [] }] :=
  ⟨snapshot_flags_never_both_true.1 _,
   snapshot_flags_never_both_true.2 recordingRecorder rfl rfl rfl⟩

end MicToMp3
